import Mathlib

/-
  Verification of the rex Go client library (package rex) against its
  natural-language specification.

  The development is a shallow embedding of the HTTP-client code:

  * Go strings are modelled as `List Char`.
  * The HTTP transport (`Executor.Execute` / `http.Client.Do`) is modelled by a
    scripted world: a `World` carries the list of responses the transport will
    deliver, in order, together with the trace of the requests issued so far
    and the local files written so far.  Each call to `exec` consumes the next
    scripted outcome and records the request in the trace.
  * A transport failure (`err != nil`) always comes with a nil `*http.Response`
    (the contract of `http.Client.Do`); it is the `ExecOutcome.fail` case.
    Dereferencing the nil response is a Go runtime panic, modelled by the
    `Outcome.panicked` result.
  * JSON bodies are represented by their parsed content: `RespBody` carries
    exactly the projections the code queries (`_links.self.href`,
    `_links.file.upload.href`, `_links.user.href`, `page.totalElements`,
    `userId`, the embedded project list) together with the raw text (used when
    the body is interpolated into an error message) and a `decodeOk` flag
    standing for success of `json.Unmarshal`/`Decoder.Decode`.  A `gjson.Get`
    of a missing field yields the zero value, so an error body is modelled by
    a `RespBody` whose fields are zero.
  * Request bodies are represented by the structure that the code JSON-encodes
    into the buffer (`Body.projPayload`, `Body.refPayload`, `Body.filePayload`)
    or by raw bytes (`Body.raw`, used for the multipart upload buffer and the
    token grant).  Only the Content-Type request header is tracked; the other
    headers (bearer token, accept) are attached uniformly by the executor and
    are never inspected by the properties below.
  * `uuid.New().String()` is a fresh value from the environment; it enters the
    model as an explicit argument, as does the random multipart boundary
    chosen by `multipart.NewWriter`.
-/

set_option maxHeartbeats 1000000

namespace Rex

/-- Character list of a string literal; the model represents Go strings as `List Char`. -/
def str (s : String) : List Char := s.data

/-- Go strings in the model. -/
abbrev Str := List Char

/-- RexBaseURL is the hostname for accessing the REX cloud services (rex.go). -/
def RexBaseURL : Str := str "https://rex.robotic-eyes.com"

/-- Token endpoint path (client.go). -/
def apiAuth : Str := str "/oauth/token"

/-- Project collection path (rexProject.go). -/
def apiProjects : Str := str "/api/v2/projects"

/-- Reference collection path (rexProject.go). -/
def apiRexReferences : Str := str "/api/v2/rexReferences"

/-- Project list by owner path (rexProject.go). -/
def apiProjectByOwner : Str := str "/api/v2/projects/search/findAllByOwner?owner="

/-- Project file collection path (rexProject.go). -/
def apiProjectFiles : Str := str "/api/v2/projectFiles/"

/-- Current user path (rexUser.go). -/
def apiCurrentUser : Str := str "/api/v2/users/current"

/-- User collection path (rexUser.go). -/
def apiUsers : Str := str "/api/v2/users"

/-- Find user id by email path (rexUser.go). -/
def apiFindByEmail : Str := str "/api/v2/users/search/findUserIdByEmail?email="

/-- Find user by id path (rexUser.go). -/
def apiFindByID : Str := str "/api/v2/users/search/findByUserId?userId="

/-- Address information of a project (struct ProjectAddress). -/
structure ProjectAddress where
  addressLine1 : Str
  addressLine2 : Str
  addressLine3 : Str
  addressLine4 : Str
  postcode : Str
  city : Str
  region : Str
  country : Str

/-- Rotation part of a transformation (x, y, z float64 fields). -/
structure Rotation3 where
  x : Float
  y : Float
  z : Float

/-- Position part of a transformation (GeoJSON-like type plus coordinates). -/
structure GeoPosition where
  type : Str
  coordinates : List Float

/-- ProjectTransformation: absolute or relative transformation of a reference. -/
structure ProjectTransformation where
  rotation : Rotation3
  position : GeoPosition

/-- FileTransformation: transformation between a reference and the actual file. -/
structure FileTransformation where
  rotation : Rotation3
  position : GeoPosition
  scale : Float

/-- Reference is a spatial anchor attached to a project or a project file
(struct Reference in rexProject.go).  Pointer fields are `Option`; the zero
value of `ParentReference` is the empty string. -/
structure Reference where
  key : Str
  project : Str
  parentReference : Str
  rootReference : Bool
  address : Option ProjectAddress
  absTransform : Option ProjectTransformation
  relTransform : Option ProjectTransformation
  fileTransform : Option FileTransformation

/-- ProjectSimple: the basic project structure; `id` is not on the wire, it is
assigned client-side after listing (struct ProjectSimple). -/
structure ProjectSimple where
  id : Str
  name : Str
  owner : Str
  selfHref : Str

/-- Wire form of a listed project: what `json.Decode` fills in from
`_embedded.projects` (name, owner, `_links.self.href`); the convenience `ID`
field is absent from the payload. -/
structure ProjectWire where
  name : Str
  owner : Str
  selfHref : Str

/-- Payload of the project-file create POST (anonymous struct in
UploadProjectFile). -/
structure ProjectFilePayload where
  name : Str
  project : Str
  rexReference : Str

/-- A request body: either raw bytes or the structure the code JSON-encodes. -/
inductive Body where
  | empty : Body
  | raw : Str → Body
  | projPayload : ProjectSimple → Body
  | refPayload : Reference → Body
  | filePayload : ProjectFilePayload → Body

/-- An outgoing HTTP request: method, URL, the Content-Type header (empty when
not set by the code) and the body. -/
structure Request where
  method : Str
  url : Str
  contentType : Str
  body : Body

/-- Parsed view of a response body: the projections queried by the code, the
raw text (interpolated into error messages), and a flag standing for success
of `json.Unmarshal` / `json.Decoder.Decode` on this body.  Fields that a JSON
query would not find are the zero value, exactly as `gjson` returns them. -/
structure RespBody where
  raw : Str
  decodeOk : Bool
  selfHref : Str
  fileUploadHref : Str
  userHref : Str
  userId : Str
  pageTotalElements : Nat
  projects : List ProjectWire

/-- An HTTP response: status code, the optional Content-Disposition header
(`none` when the server sent no such header) and the body. -/
structure Response where
  status : Nat
  contentDisposition : Option Str
  body : RespBody

/-- Outcome of one transport call: a response with nil error, or a transport
error with nil response (the `http.Client.Do` contract). -/
inductive ExecOutcome where
  | ok : Response → ExecOutcome
  | fail : Str → ExecOutcome

/-- The scripted world: responses still to be delivered, requests issued so
far, and local files written so far (name, content). -/
structure World where
  script : List ExecOutcome
  trace : List Request
  files : List (Str × Str)

/-- Initial world for a given transport script. -/
def w0 (script : List ExecOutcome) : World :=
  { script := script, trace := [], files := [] }

/-- One transport call: record the request, deliver the next scripted outcome.
An exhausted script behaves as a transport failure. -/
def exec (w : World) (req : Request) : ExecOutcome × World :=
  match w.script with
  | [] => (ExecOutcome.fail (str "connection refused"),
           { w with script := [], trace := w.trace ++ [req] })
  | o :: rest => (o, { w with script := rest, trace := w.trace ++ [req] })

/-- Result of running a Go function: a returned value, or a runtime panic
(nil-pointer dereference). -/
inductive Outcome (α : Type) where
  | ret : α → Outcome α
  | panicked : Str → Outcome α

/-- Decimal rendering of a status code, as `fmt.Errorf` with `%d` produces. -/
def natStr (n : Nat) : Str := (Nat.repr n).data

/-- The message of `fmt.Errorf("Got server status %d with error: %s ", ...)`. -/
def serverErrMsg (resp : Response) : Str :=
  str "Got server status " ++ natStr resp.status ++ str " with error: "
    ++ resp.body.raw ++ str " "

/-- Boolean prefix test on character lists (needle, haystack). -/
def startsWith : Str → Str → Bool
  | [], _ => true
  | _ :: _, [] => false
  | a :: as, b :: bs => if a = b then startsWith as bs else false

/-- Boolean substring test on character lists (needle, haystack). -/
def containsSub (pat : Str) : Str → Bool
  | [] => startsWith pat []
  | c :: rest => startsWith pat (c :: rest) || containsSub pat rest

/-- Leftmost-match capture of the Go regex `pat(.*)`: find the first occurrence
of the literal `pat` and capture greedily after it; `.` does not match a
newline, so the capture stops at the first newline. -/
def scanCapture (pat : Str) : Str → Option Str
  | [] => if startsWith pat [] then some [] else none
  | c :: rest =>
    if startsWith pat (c :: rest) then
      some ((List.drop pat.length (c :: rest)).takeWhile (fun ch => ch ≠ '\n'))
    else scanCapture pat rest

/-- Greedy capture for `(.*)"` on the text after the literal `filename="`: the
match must close with a quote on the same line, and `.*` is greedy, so the
capture runs to the last quote of the line; `none` when no quote follows. -/
def captureQuoted (t : Str) : Option Str :=
  let line := t.takeWhile (fun ch => ch ≠ '\n')
  match line.reverse.dropWhile (fun ch => ch ≠ '"') with
  | [] => none
  | _ :: front => some front.reverse

/-- Leftmost match of the Go regex `filename="(.*)"`: scan for an occurrence of
the literal `filename="` whose line has a closing quote, and capture greedily
between them. -/
def scanFilenameQuoted : Str → Option Str
  | [] => none
  | c :: rest =>
    if startsWith (str "filename=\"") (c :: rest) then
      match captureQuoted (List.drop 10 (c :: rest)) with
      | some v => some v
      | none => scanFilenameQuoted rest
    else scanFilenameQuoted rest

/-- Claim-side reading of the ID extraction, following the specification's
words: "the substring following /projects/ in the project's self hyperlink" —
everything after the first occurrence of the literal, with no newline
truncation.  Declared only to be compared with the regex semantics of the
source (`scanCapture`). -/
def specSubstringFollowing (pat : Str) : Str → Option Str
  | [] => if startsWith pat [] then some [] else none
  | c :: rest =>
    if startsWith pat (c :: rest) then some (List.drop pat.length (c :: rest))
    else specSubstringFollowing pat rest

/-- CRLF line terminator of the multipart wire format. -/
def crlf : Str := str "\r\n"

/-- One form-file part as `mime/multipart.Writer.CreateFormFile` emits it:
boundary line, Content-Disposition with field and file names, octet-stream
content type, blank line, content, line break. -/
def multipartPart (boundary field fileName content : Str) : Str :=
  str "--" ++ boundary ++ crlf
    ++ str "Content-Disposition: form-data; name=\"" ++ field
    ++ str "\"; filename=\"" ++ fileName ++ str "\"" ++ crlf
    ++ str "Content-Type: application/octet-stream" ++ crlf ++ crlf
    ++ content ++ crlf

/-- A whole multipart/form-data body: the encoded parts followed by the closing
boundary, as `Writer.Close` emits it. -/
def multipartEncode (boundary : Str) (parts : List (Str × Str × Str)) : Str :=
  (parts.map (fun p => multipartPart boundary p.1 p.2.1 p.2.2)).flatten
    ++ str "--" ++ boundary ++ str "--" ++ crlf

/-- The value of the Content-Type header produced by `Writer.FormDataContentType`. -/
def formDataContentType (boundary : Str) : Str :=
  str "multipart/form-data; boundary=" ++ boundary

/-- Contents of the local `bytes.Buffer` of `uploadFileContent` at the moment
`http.NewRequest` is called: `io.Copy(part, r)` has already copied the whole
input into the buffer, so the buffer holds the complete multipart body with
the single form field `file`. -/
def uploadBuffer (boundary fileName content : Str) : Str :=
  multipartEncode boundary [(str "file", fileName, content)]

/-- uploadFileContent (rexProject.go): build the multipart body in an in-memory
buffer, POST it to the upload URL, discard the response body, return the
transport error.  The status code is never inspected.  On a transport failure
the response is nil and `io.Copy(ioutil.Discard, resp.Body)` dereferences it,
which is a runtime panic. -/
def uploadFileContent (boundary uploadURL fileName content : Str) (w : World) :
    Outcome (Option Str) × World :=
  let body := uploadBuffer boundary fileName content
  let req : Request :=
    { method := str "POST", url := uploadURL,
      contentType := formDataContentType boundary, body := Body.raw body }
  match exec w req with
  | (ExecOutcome.ok _, w') => (Outcome.ret none, w')
  | (ExecOutcome.fail _, w') =>
    (Outcome.panicked (str "runtime error: invalid memory address or nil pointer dereference"), w')

/-- createRexReference (rexProject.go): POST the JSON-encoded reference.  The
body drain is deferred before the error check, so a transport failure (nil
response) panics when the deferred `io.Copy(ioutil.Discard, resp.Body)` runs.
A non-201 status yields the formatted server error; otherwise the result is
`_links.self.href` of the response body. -/
def createRexReference (r : Reference) (w : World) : Outcome (Str × Option Str) × World :=
  let req : Request :=
    { method := str "POST", url := RexBaseURL ++ apiRexReferences,
      contentType := [], body := Body.refPayload r }
  match exec w req with
  | (ExecOutcome.fail _, w') =>
    (Outcome.panicked (str "runtime error: invalid memory address or nil pointer dereference"), w')
  | (ExecOutcome.ok resp, w') =>
    if resp.status ≠ 201 then (Outcome.ret ([], some (serverErrMsg resp)), w')
    else (Outcome.ret (resp.body.selfHref, none), w')

/-- CreateProject (rexProject.go): POST the project, expect 201, then POST a
root reference keyed by the freshly generated UUID (passed in as `uuid`),
whose project field is the self link extracted from the create response and
whose parent is the zero value (empty). -/
def CreateProject (userID name : Str) (address : Option ProjectAddress)
    (absoluteTransformation : Option ProjectTransformation) (uuid : Str) (w : World) :
    Outcome (Option Str) × World :=
  let p : ProjectSimple := { id := [], name := name, owner := userID, selfHref := [] }
  let req : Request :=
    { method := str "POST", url := RexBaseURL ++ apiProjects,
      contentType := [], body := Body.projPayload p }
  match exec w req with
  | (ExecOutcome.fail e, w') => (Outcome.ret (some e), w')
  | (ExecOutcome.ok resp, w') =>
    if resp.status ≠ 201 then (Outcome.ret (some (serverErrMsg resp)), w')
    else
      let rexReference : Reference :=
        { key := uuid, project := resp.body.selfHref, parentReference := [],
          rootReference := true, address := address,
          absTransform := absoluteTransformation, relTransform := none,
          fileTransform := none }
      match createRexReference rexReference w' with
      | (Outcome.ret (_, err), w₂) => (Outcome.ret err, w₂)
      | (Outcome.panicked m, w₂) => (Outcome.panicked m, w₂)

/-- UploadProjectFile (rexProject.go): the four-step upload workflow.  Step 1
GETs the root reference; a non-200 status aborts with the fixed error message
and nothing further runs.  Step 2 POSTs a non-root reference parented to the
root reference's self link.  Step 3 POSTs the project-file record.  Step 4
POSTs the multipart content to the extracted `file.upload` hyperlink. -/
def UploadProjectFile (projectID name fileName : Str)
    (transform : Option FileTransformation) (uuid boundary content : Str) (w : World) :
    Outcome (Option Str) × World :=
  let rootReferenceURL :=
    RexBaseURL ++ apiProjects ++ str "/" ++ projectID ++ str "/rootRexReference"
  let req : Request :=
    { method := str "GET", url := rootReferenceURL, contentType := [], body := Body.raw [] }
  match exec w req with
  | (ExecOutcome.fail e, w') => (Outcome.ret (some e), w')
  | (ExecOutcome.ok resp, w') =>
    if resp.status ≠ 200 then
      (Outcome.ret (some (str "Cannot create project file reference, because no project reference is set")), w')
    else
      let parentReferenceURL := resp.body.selfHref
      let rexReference : Reference :=
        { key := uuid, project := RexBaseURL ++ apiProjects ++ str "/" ++ projectID,
          parentReference := parentReferenceURL, rootReference := false,
          address := none, absTransform := none, relTransform := none,
          fileTransform := transform }
      match createRexReference rexReference w' with
      | (Outcome.panicked m, w₂) => (Outcome.panicked m, w₂)
      | (Outcome.ret (_, some e), w₂) => (Outcome.ret (some e), w₂)
      | (Outcome.ret (selfLink, none), w₂) =>
        let projectFile : ProjectFilePayload :=
          { name := name, project := RexBaseURL ++ apiProjects ++ str "/" ++ projectID,
            rexReference := selfLink }
        let req₂ : Request :=
          { method := str "POST", url := RexBaseURL ++ apiProjectFiles,
            contentType := [], body := Body.filePayload projectFile }
        match exec w₂ req₂ with
        | (ExecOutcome.fail e, w₃) => (Outcome.ret (some e), w₃)
        | (ExecOutcome.ok resp₂, w₃) =>
          if resp₂.status ≠ 201 then (Outcome.ret (some (serverErrMsg resp₂)), w₃)
          else
            uploadFileContent boundary resp₂.body.fileUploadHref fileName content w₃

/-- ID assignment of the listing loop in GetProjects: the capture of the Go
regex `/projects/(.*)` on the self link when it matches, otherwise the decoded
zero value (empty). -/
def assignProjectID (p : ProjectWire) : ProjectSimple :=
  { id := match scanCapture (str "/projects/") p.selfHref with
          | some v => v
          | none => []
    , name := p.name, owner := p.owner, selfHref := p.selfHref }

/-- GetProjects (rexProject.go): GET the owner-filtered list, decode it, and
set the convenience ID of every listed project from its self hyperlink.  On a
decode failure the zero-value list is returned together with the decode
error. -/
def GetProjects (userID : Str) (w : World) : (List ProjectSimple × Option Str) × World :=
  let req : Request :=
    { method := str "GET", url := RexBaseURL ++ apiProjectByOwner ++ userID,
      contentType := [], body := Body.empty }
  match exec w req with
  | (ExecOutcome.fail e, w') => (([], some e), w')
  | (ExecOutcome.ok resp, w') =>
    let decoded := if resp.body.decodeOk then resp.body.projects else []
    ((decoded.map assignProjectID,
      if resp.body.decodeOk then none else some (str "invalid json")), w')

/-- GetTotalNumberOfUsers (rexUser.go): GET the user collection and return the
`page.totalElements` field extracted by gjson from the body.  No status check
is performed; the only error path is a transport failure. -/
def GetTotalNumberOfUsers (w : World) : (Nat × Option Str) × World :=
  let req : Request :=
    { method := str "GET", url := RexBaseURL ++ apiUsers,
      contentType := [], body := Body.empty }
  match exec w req with
  | (ExecOutcome.fail e, w') => ((0, some e), w')
  | (ExecOutcome.ok resp, w') => ((resp.body.pageTotalElements, none), w')

/-- User structure (rexUser.go), reduced to the fields the verified operations
read or write. -/
structure UserRec where
  userId : Str
  selfLink : Str

/-- GetUserByEmail (rexUser.go): resolve the email to a user id; when the
decode fails or the id is empty, return the empty user and the `user not
found` error without a second call; otherwise re-fetch by id.  The second
decode error is swallowed (`return &user, nil`); when it fails the user keeps
the fields of the first decode. -/
def GetUserByEmail (email : Str) (w : World) : (Option UserRec × Option Str) × World :=
  let req : Request :=
    { method := str "GET", url := RexBaseURL ++ apiFindByEmail ++ email,
      contentType := [], body := Body.empty }
  match exec w req with
  | (ExecOutcome.fail e, w') => ((none, some e), w')
  | (ExecOutcome.ok resp, w') =>
    if !resp.body.decodeOk || resp.body.userId = [] then
      ((some { userId := [], selfLink := [] }, some (str "user not found")), w')
    else
      let req₂ : Request :=
        { method := str "GET", url := RexBaseURL ++ apiFindByID ++ resp.body.userId,
          contentType := [], body := Body.empty }
      match exec w' req₂ with
      | (ExecOutcome.fail e, w₂) => ((none, some e), w₂)
      | (ExecOutcome.ok resp₂, w₂) =>
        let uid := if resp₂.body.decodeOk then resp₂.body.userId else resp.body.userId
        ((some { userId := uid, selfLink := [] }, none), w₂)

/-- DownloadFile (rexProjectFile.go): GET the link, extract the suggested file
name from the Content-Disposition header via the regex `filename="(.*)"`
(default `default.dat` when there is no match), and stream the body into a
newly created local file of that name. -/
def DownloadFile (link : Str) (w : World) : Option Str × World :=
  let req : Request :=
    { method := str "GET", url := link, contentType := [], body := Body.empty }
  match exec w req with
  | (ExecOutcome.fail e, w') => (some e, w')
  | (ExecOutcome.ok resp, w') =>
    let contentInfo := match resp.contentDisposition with
                       | some s => s
                       | none => []
    let fileName := match scanFilenameQuoted contentInfo with
                    | some v => v
                    | none => str "default.dat"
    (none, { w' with files := w'.files ++ [(fileName, resp.body.raw)] })

/-- The token request issued by fetchToken (client.go): POST of the
client-credentials grant; the Basic authorization header carries the encoded
credentials and is not inspected by any verified property. -/
def authRequest : Request :=
  { method := str "POST", url := RexBaseURL ++ apiAuth,
    contentType := str "application/x-www-form-urlencoded; charset=ISO-8859-1",
    body := Body.raw (str "grant_type=client_credentials") }

/-- fetchToken (client.go): POST the grant; a transport failure is returned as
is, a non-200 status becomes the fixed error message, and on 200 the token is
unmarshalled (`decodeOk` stands for `json.Unmarshal` success). -/
def fetchToken (w : World) : Option Str × World :=
  match exec w authRequest with
  | (ExecOutcome.fail e, w') => (some e, w')
  | (ExecOutcome.ok resp, w') =>
    if resp.status ≠ 200 then (some (str "Server did not respond properly"), w')
    else if resp.body.decodeOk then (none, w')
    else (some (str "invalid json"), w')

/-- GetCurrentUser (rexUser.go): GET the current user, decode it and derive the
self link from `_links.user.href`; the decoded user is returned together with
the unmarshal error when the decode fails. -/
def GetCurrentUser (w : World) : (Option UserRec × Option Str) × World :=
  let req : Request :=
    { method := str "GET", url := RexBaseURL ++ apiCurrentUser,
      contentType := [], body := Body.empty }
  match exec w req with
  | (ExecOutcome.fail e, w') => ((none, some e), w')
  | (ExecOutcome.ok resp, w') =>
    ((some { userId := resp.body.userId, selfLink := resp.body.userHref },
      if resp.body.decodeOk then none else some (str "invalid json")), w')

/-- The client record built by NewClient, reduced to the fields the verified
properties read. -/
structure ClientRec where
  clientID : Str
  clientSecret : Str
  user : Option UserRec

/-- NewClient (client.go): fetch the token; when that fails, return the error
without touching the user endpoint; otherwise fetch the current user and
return the client together with that call's error. -/
def NewClient (clientID clientSecret : Str) (w : World) :
    (Option ClientRec × Option Str) × World :=
  match fetchToken w with
  | (some e, w') => ((none, some e), w')
  | (none, w') =>
    match GetCurrentUser w' with
    | ((u, err), w₂) =>
      ((some { clientID := clientID, clientSecret := clientSecret, user := u }, err), w₂)

/-- A response body with every queried field at its zero value (what gjson
yields on a body that does not carry the field) and a succeeding decode. -/
def emptyBody : RespBody :=
  { raw := [], decodeOk := true, selfHref := [], fileUploadHref := [],
    userHref := [], userId := [], pageTotalElements := 0, projects := [] }

/-- A response with the given status, no Content-Disposition header and the
given body. -/
def mkResp (status : Nat) (b : RespBody) : Response :=
  { status := status, contentDisposition := none, body := b }

/-- Scripted body of a successful root-reference lookup. -/
def rootRefBody : RespBody :=
  { emptyBody with selfHref := str "https://rex.robotic-eyes.com/api/v2/rexReferences/55" }

/-- Scripted body of a successful reference create. -/
def newRefBody : RespBody :=
  { emptyBody with selfHref := str "https://rex.robotic-eyes.com/api/v2/rexReferences/56" }

/-- Scripted body of a successful project-file create, carrying the upload
hyperlink. -/
def upFileBody : RespBody :=
  { emptyBody with
    fileUploadHref := str "https://rex.robotic-eyes.com/api/v2/projectFiles/77/file" }

/-- Scripted body of a successful project create. -/
def projCreatedBody : RespBody :=
  { emptyBody with selfHref := str "https://rex.robotic-eyes.com/api/v2/projects/1021" }

/-- A listed project whose self hyperlink ends in /projects/1020. -/
def wire1020 : ProjectWire :=
  { name := str "demo", owner := str "owner1",
    selfHref := str "https://rex.robotic-eyes.com/api/v2/projects/1020" }

/-- A listed project whose self hyperlink has no /projects/ segment. -/
def wirePlain : ProjectWire :=
  { name := str "demo2", owner := str "owner1",
    selfHref := str "https://rex.robotic-eyes.com/api/v2/things/9" }

/-- A listed project whose self hyperlink carries a newline inside the part
following /projects/. -/
def wireNl : ProjectWire :=
  { name := str "demo3", owner := str "owner1",
    selfHref := str "https://rex.robotic-eyes.com/api/v2/projects/10\n20" }

/-- Scripted body of a user-id lookup that resolved the email. -/
def userFoundBody : RespBody := { emptyBody with userId := str "u-42" }

end Rex

namespace Rex

/-- Sanity: string literals reduce to character lists. -/
example : str "ab" = ['a', 'b'] := by decide

/-- Sanity: capture after the first occurrence, up to the end. -/
example : scanCapture (str "/projects/") (str "https://x/api/v2/projects/1020")
    = some (str "1020") := by decide

/-- Sanity: no occurrence of the literal gives no match. -/
example : scanCapture (str "/projects/") (str "https://x/api/v2/things/7") = none := by
  decide

/-- Sanity: the capture stops at a newline. -/
example : scanCapture (str "/projects/") (str "/projects/10\n20") = some (str "10") := by
  decide

/-- Sanity: filename extraction from a Content-Disposition value. -/
example : scanFilenameQuoted (str "attachment; filename=\"model.rex\"")
    = some (str "model.rex") := by decide

/-- Sanity: the empty header value has no match. -/
example : scanFilenameQuoted (str "") = none := by decide

/-- A prefix matches its own extension. -/
theorem startsWith_append_self (p t : Str) : startsWith p (p ++ t) = true := by
  induction p with
  | nil => rfl
  | cons a as ih => simp [startsWith, ih]

/-- A pattern occurs in any text beginning with it. -/
theorem containsSub_here (pat y : Str) : containsSub pat (pat ++ y) = true := by
  cases pat with
  | nil => cases y <;> simp [containsSub, startsWith]
  | cons a as =>
    have h := startsWith_append_self (a :: as) y
    simp [containsSub]
    exact Or.inl h

/-- A pattern occurs in any text containing it. -/
theorem containsSub_middle (pat x y : Str) : containsSub pat (x ++ (pat ++ y)) = true := by
  induction x with
  | nil => simpa using containsSub_here pat y
  | cons c x ih =>
    simp [containsSub]
    exact Or.inr (by simpa using ih)

/-- The regex scan succeeds exactly when the literal occurs in the text. -/
theorem scanCapture_isSome (pat s : Str) :
    (scanCapture pat s).isSome = containsSub pat s := by
  induction s with
  | nil => cases h : startsWith pat [] <;> simp [scanCapture, containsSub, h]
  | cons c rest ih =>
    cases h : startsWith pat (c :: rest) <;> simp [scanCapture, containsSub, h, ih]

/-- The source's regex capture is the specification's "substring following the
pattern", truncated at the first newline. -/
theorem scanCapture_eq_spec (pat s : Str) :
    scanCapture pat s
      = (specSubstringFollowing pat s).map (List.takeWhile (fun ch => ch ≠ '\n')) := by
  induction s with
  | nil => cases h : startsWith pat [] <;> simp [scanCapture, specSubstringFollowing, h]
  | cons c rest ih =>
    cases h : startsWith pat (c :: rest) <;>
      simp [scanCapture, specSubstringFollowing, h, ih]

/-- fetchToken issues exactly the token request, whatever the transport does. -/
theorem fetchToken_trace (w : World) : (fetchToken w).2.trace = w.trace ++ [authRequest] := by
  rcases w with ⟨script, trace, files⟩
  cases script with
  | nil => rfl
  | cons o rest =>
    cases o with
    | fail e => rfl
    | ok resp =>
      simp only [fetchToken, exec]
      split
      · rfl
      · split <;> rfl

/-- The ID a listed project gets is the specification's "substring following
/projects/", truncated at the first newline, and empty when there is no
occurrence. -/
theorem assignProjectID_id_spec (p : ProjectWire) :
    (assignProjectID p).id
      = match specSubstringFollowing (str "/projects/") p.selfHref with
        | some v => v.takeWhile (fun ch => ch ≠ '\n')
        | none => [] := by
  simp only [assignProjectID, scanCapture_eq_spec]
  rcases specSubstringFollowing (str "/projects/") p.selfHref with _ | v <;> simp

/-- C1: in UploadProjectFile, a first response (root-reference lookup) with a
status other than 200 makes the workflow fail with the error message "Cannot
create project file reference, because no project reference is set" — which
carries the claimed text "no project reference is set" — and exactly one HTTP
request is issued; the remaining three steps are skipped. -/
theorem C1_upload_aborts_without_root_reference
    (projectID name fileName : Str) (transform : Option FileTransformation)
    (uuid boundary content : Str) (resp : Response) (rest : List ExecOutcome)
    (h : resp.status ≠ 200) :
    (UploadProjectFile projectID name fileName transform uuid boundary content
        (w0 (ExecOutcome.ok resp :: rest))).1
      = Outcome.ret (some (str "Cannot create project file reference, because no project reference is set"))
    ∧ containsSub (str "no project reference is set")
        (str "Cannot create project file reference, because no project reference is set") = true
    ∧ (UploadProjectFile projectID name fileName transform uuid boundary content
        (w0 (ExecOutcome.ok resp :: rest))).2.trace.length = 1 := by
  refine ⟨?_, by decide, ?_⟩ <;> simp [UploadProjectFile, exec, w0, h]

/-- C1 witness: a concrete 404 on the root-reference lookup. -/
theorem C1_witness :
    (UploadProjectFile (str "1020") (str "part") (str "part.rex") none
        (str "uuid-9") (str "bnd") (str "DATA")
        (w0 [ExecOutcome.ok (mkResp 404 emptyBody)])).1
      = Outcome.ret (some (str "Cannot create project file reference, because no project reference is set"))
    ∧ (UploadProjectFile (str "1020") (str "part") (str "part.rex") none
        (str "uuid-9") (str "bnd") (str "DATA")
        (w0 [ExecOutcome.ok (mkResp 404 emptyBody)])).2.trace.length = 1 :=
  ⟨(C1_upload_aborts_without_root_reference (str "1020") (str "part") (str "part.rex")
      none (str "uuid-9") (str "bnd") (str "DATA") (mkResp 404 emptyBody) []
      (by decide)).1,
   (C1_upload_aborts_without_root_reference (str "1020") (str "part") (str "part.rex")
      none (str "uuid-9") (str "bnd") (str "DATA") (mkResp 404 emptyBody) []
      (by decide)).2.2⟩

/-- C2: CreateProject chains the project POST and the root-reference POST:
when both responses have status 201 it returns no error, and the reference
payload sent carries rootReference = true, an empty parentReference, the
freshly generated UUID as key, the self hyperlink extracted from the
project-create response body as project, and the caller's address and
absolute transformation. -/
theorem C2_createProject_chains_root_reference
    (userID name : Str) (address : Option ProjectAddress)
    (tf : Option ProjectTransformation) (uuid : Str)
    (resp₁ resp₂ : Response) (rest : List ExecOutcome)
    (h₁ : resp₁.status = 201) (h₂ : resp₂.status = 201) :
    (CreateProject userID name address tf uuid
        (w0 (ExecOutcome.ok resp₁ :: ExecOutcome.ok resp₂ :: rest))).1 = Outcome.ret none
    ∧ (CreateProject userID name address tf uuid
        (w0 (ExecOutcome.ok resp₁ :: ExecOutcome.ok resp₂ :: rest))).2.trace.map Request.body
      = [Body.projPayload { id := [], name := name, owner := userID, selfHref := [] },
         Body.refPayload { key := uuid, project := resp₁.body.selfHref,
                           parentReference := [], rootReference := true, address := address,
                           absTransform := tf, relTransform := none, fileTransform := none }]
    ∧ (CreateProject userID name address tf uuid
        (w0 (ExecOutcome.ok resp₁ :: ExecOutcome.ok resp₂ :: rest))).2.trace.map Request.url
      = [RexBaseURL ++ apiProjects, RexBaseURL ++ apiRexReferences] := by
  refine ⟨?_, ?_, ?_⟩ <;> simp [CreateProject, createRexReference, exec, w0, h₁, h₂]

/-- C2 witness: both creates answer 201. -/
theorem C2_witness :
    (CreateProject (str "owner1") (str "proj") none none (str "uuid-1")
        (w0 [ExecOutcome.ok (mkResp 201 projCreatedBody),
             ExecOutcome.ok (mkResp 201 newRefBody)])).1 = Outcome.ret none
    ∧ (CreateProject (str "owner1") (str "proj") none none (str "uuid-1")
        (w0 [ExecOutcome.ok (mkResp 201 projCreatedBody),
             ExecOutcome.ok (mkResp 201 newRefBody)])).2.trace.map Request.body
      = [Body.projPayload { id := [], name := str "proj", owner := str "owner1", selfHref := [] },
         Body.refPayload { key := str "uuid-1", project := projCreatedBody.selfHref,
                           parentReference := [], rootReference := true, address := none,
                           absTransform := none, relTransform := none, fileTransform := none }] :=
  ⟨(C2_createProject_chains_root_reference (str "owner1") (str "proj") none none
      (str "uuid-1") (mkResp 201 projCreatedBody) (mkResp 201 newRefBody) []
      rfl rfl).1,
   (C2_createProject_chains_root_reference (str "owner1") (str "proj") none none
      (str "uuid-1") (mkResp 201 projCreatedBody) (mkResp 201 newRefBody) []
      rfl rfl).2.1⟩

/-- C3 counterexample: a 403 response (a non-admin caller) makes
GetTotalNumberOfUsers return the count 0 with no error at all — the function
inspects no status code — contradicting the claim that every non-2xx response
yields a generic error instead of a count. -/
theorem C3_counterexample :
    (GetTotalNumberOfUsers (w0 [ExecOutcome.ok (mkResp 403 emptyBody)])).1 = (0, none) := by
  rfl

/-- C3 (amended): GetTotalNumberOfUsers returns the page.totalElements field
extracted from the response body, without decoding the full list and without
inspecting the status code: every response delivered without a transport
error — non-2xx responses to non-admin callers included — yields the
extracted value (zero when the field is absent) with no error. -/
theorem C3_user_count_ignores_status (resp : Response) (rest : List ExecOutcome) :
    (GetTotalNumberOfUsers (w0 (ExecOutcome.ok resp :: rest))).1
      = (resp.body.pageTotalElements, none) := by
  simp [GetTotalNumberOfUsers, exec, w0]

/-- C4 counterexample: at a concrete input, the request body handed to
http.NewRequest is the fully materialized multipart buffer, and the whole
payload occurs inside that buffer — the input was copied into memory before
the request was issued, so the upload does not stream the source without
buffering the payload, contrary to the claim. -/
theorem C4_counterexample :
    (uploadFileContent (str "bnd1") (str "https://up") (str "model.rex") (str "REXDATA")
        (w0 [ExecOutcome.ok (mkResp 200 emptyBody)])).2.trace.map Request.body
      = [Body.raw (uploadBuffer (str "bnd1") (str "model.rex") (str "REXDATA"))]
    ∧ containsSub (str "REXDATA")
        (uploadBuffer (str "bnd1") (str "model.rex") (str "REXDATA")) = true :=
  ⟨rfl, by decide⟩

/-- C4 (amended): step 4 POSTs the file content to the upload hyperlink as
multipart/form-data with exactly one form field, named "file"; the entire
multipart body — the whole payload included — is first accumulated in an
in-memory buffer, and that buffer is the body of the single request issued
(the input source is not streamed). -/
theorem C4_upload_single_buffered_field
    (boundary uploadURL fileName content : Str) (script : List ExecOutcome) :
    (uploadFileContent boundary uploadURL fileName content (w0 script)).2.trace.map
        (fun q => (q.method, q.url, q.contentType, q.body))
      = [(str "POST", uploadURL, formDataContentType boundary,
          Body.raw (multipartEncode boundary [(str "file", fileName, content)]))]
    ∧ containsSub content
        (multipartEncode boundary [(str "file", fileName, content)]) = true := by
  constructor
  · cases script with
    | nil => rfl
    | cons o rest => cases o <;> rfl
  · have h := containsSub_middle content
      (str "--" ++ boundary ++ crlf
        ++ str "Content-Disposition: form-data; name=\"" ++ str "file"
        ++ str "\"; filename=\"" ++ fileName ++ str "\"" ++ crlf
        ++ str "Content-Type: application/octet-stream" ++ crlf ++ crlf)
      (crlf ++ (str "--" ++ boundary ++ str "--" ++ crlf))
    simpa [multipartEncode, multipartPart, uploadBuffer, List.append_assoc] using h

/-- C5: at the failing input — Execute reporting a transport error, hence a
nil response — createRexReference panics when its deferred body drain
dereferences the nil response, and uploadFileContent panics copying the nil
response body: the transport error is not returned to the caller, contrary to
the claim (and to the specification's error design, which the claim
restates). -/
theorem C5_transport_error_panics
    (e : Str) (r : Reference) (boundary uploadURL fileName content : Str) :
    (createRexReference r (w0 [ExecOutcome.fail e])).1
      = Outcome.panicked (str "runtime error: invalid memory address or nil pointer dereference")
    ∧ (uploadFileContent boundary uploadURL fileName content (w0 [ExecOutcome.fail e])).1
      = Outcome.panicked (str "runtime error: invalid memory address or nil pointer dereference") :=
  ⟨rfl, rfl⟩

/-- C6: the upload POST's status code is never inspected: any response
delivered without a transport error makes uploadFileContent return nil, and a
complete UploadProjectFile run whose first three steps succeed returns nil
whatever the status of the final upload response. -/
theorem C6_upload_response_status_ignored
    (resp : Response) (rest : List ExecOutcome)
    (boundary uploadURL fileName content : Str)
    (projectID name : Str) (transform : Option FileTransformation)
    (uuid : Str) (resp₄ : Response) :
    (uploadFileContent boundary uploadURL fileName content
        (w0 (ExecOutcome.ok resp :: rest))).1 = Outcome.ret none
    ∧ (UploadProjectFile projectID name fileName transform uuid boundary content
        (w0 [ExecOutcome.ok (mkResp 200 rootRefBody),
             ExecOutcome.ok (mkResp 201 newRefBody),
             ExecOutcome.ok (mkResp 201 upFileBody),
             ExecOutcome.ok resp₄])).1 = Outcome.ret none := by
  constructor
  · rfl
  · rfl

/-- C7: when fetchToken fails — in particular when the token endpoint answers
a non-200 status, which yields the authentication error "Server did not
respond properly" — NewClient returns that error and the only request ever
issued is the token POST: the user-info endpoint /api/v2/users/current is
never called. -/
theorem C7_auth_failure_skips_user_fetch (clientID clientSecret : Str) :
    (∀ (resp : Response) (rest : List ExecOutcome), resp.status ≠ 200 →
      (NewClient clientID clientSecret (w0 (ExecOutcome.ok resp :: rest))).1
        = (none, some (str "Server did not respond properly"))
      ∧ (NewClient clientID clientSecret
          (w0 (ExecOutcome.ok resp :: rest))).2.trace.map Request.url
        = [RexBaseURL ++ apiAuth])
    ∧ (∀ (script : List ExecOutcome) (e : Str) (w₂ : World),
        fetchToken (w0 script) = (some e, w₂) →
        (NewClient clientID clientSecret (w0 script)).1 = (none, some e)
        ∧ (NewClient clientID clientSecret (w0 script)).2 = w₂
        ∧ w₂.trace.map Request.url = [RexBaseURL ++ apiAuth]) := by
  constructor
  · intro resp rest h
    constructor <;> simp [NewClient, fetchToken, exec, w0, h, authRequest]
  · intro script e w₂ h
    have ht := fetchToken_trace (w0 script)
    rw [h] at ht
    refine ⟨?_, ?_, ?_⟩
    · simp [NewClient, h]
    · simp [NewClient, h]
    · simp [w0] at ht
      simp [ht, authRequest]

/-- C7 witness: a concrete 401 from the token endpoint. -/
theorem C7_witness :
    (NewClient (str "id") (str "secret") (w0 [ExecOutcome.ok (mkResp 401 emptyBody)])).1
      = (none, some (str "Server did not respond properly"))
    ∧ (NewClient (str "id") (str "secret")
        (w0 [ExecOutcome.ok (mkResp 401 emptyBody)])).2.trace.map Request.url
      = [RexBaseURL ++ apiAuth] :=
  (C7_auth_failure_skips_user_fetch (str "id") (str "secret")).1
    (mkResp 401 emptyBody) [] (by decide)

/-- C8: GetUserByEmail is a two-step lookup: when the first response decodes
to an empty user identifier or fails to decode, it returns the "user not
found" error after exactly one request — the by-ID request is not issued —
and only when the first lookup yields a non-empty identifier is the second
request (GET findByUserId) sent. -/
theorem C8_user_by_email_two_step (email : Str) :
    (∀ (resp : Response) (rest : List ExecOutcome),
      resp.body.decodeOk = false ∨ resp.body.userId = [] →
      (GetUserByEmail email (w0 (ExecOutcome.ok resp :: rest))).1
        = (some { userId := [], selfLink := [] }, some (str "user not found"))
      ∧ (GetUserByEmail email (w0 (ExecOutcome.ok resp :: rest))).2.trace.map Request.url
        = [RexBaseURL ++ apiFindByEmail ++ email])
    ∧ (∀ (resp : Response) (rest : List ExecOutcome),
      resp.body.decodeOk = true → resp.body.userId ≠ [] →
      (GetUserByEmail email (w0 (ExecOutcome.ok resp :: rest))).2.trace.map Request.url
        = [RexBaseURL ++ apiFindByEmail ++ email,
           RexBaseURL ++ apiFindByID ++ resp.body.userId]) := by
  constructor
  · intro resp rest h
    rcases h with h | h <;> (constructor <;> simp [GetUserByEmail, exec, w0, h])
  · intro resp rest h₁ h₂
    cases rest with
    | nil => simp [GetUserByEmail, exec, w0, h₁, h₂]
    | cons o rest' => cases o <;> simp [GetUserByEmail, exec, w0, h₁, h₂]

/-- C8 witness: an unmatched email (empty identifier) stops after one call; a
matched email issues the by-ID request. -/
theorem C8_witness :
    ((GetUserByEmail (str "a@b.c") (w0 [ExecOutcome.ok (mkResp 200 emptyBody)])).1
      = (some { userId := [], selfLink := [] }, some (str "user not found")))
    ∧ (GetUserByEmail (str "a@b.c")
        (w0 [ExecOutcome.ok (mkResp 200 userFoundBody),
             ExecOutcome.ok (mkResp 200 userFoundBody)])).2.trace.map Request.url
      = [RexBaseURL ++ apiFindByEmail ++ str "a@b.c",
         RexBaseURL ++ apiFindByID ++ (mkResp 200 userFoundBody).body.userId] :=
  ⟨((C8_user_by_email_two_step (str "a@b.c")).1 (mkResp 200 emptyBody) []
      (Or.inr rfl)).1,
   (C8_user_by_email_two_step (str "a@b.c")).2 (mkResp 200 userFoundBody)
      [ExecOutcome.ok (mkResp 200 userFoundBody)] rfl (by decide)⟩

/-- C9 counterexample: a decoded project whose self hyperlink carries a
newline after the /projects/ segment: the regex dot of the pattern
/projects/(.*) does not match a newline, so the assigned ID is "10", not the
full substring "10\n20" following "/projects/" that the claim prescribes. -/
theorem C9_counterexample :
    ((GetProjects (str "owner1")
        (w0 [ExecOutcome.ok (mkResp 200 { emptyBody with projects := [wireNl] })])).1.1.map
          ProjectSimple.id
      = [str "10"])
    ∧ specSubstringFollowing (str "/projects/") wireNl.selfHref = some (str "10\n20")
    ∧ str "10" ≠ str "10\n20" :=
  ⟨rfl, by decide, by decide⟩

/-- C9 (amended): every project returned by GetProjects has its ID populated
with the capture of the Go regex /projects/(.*) on its self hyperlink — the
substring following the first occurrence of "/projects/", truncated at the
first newline — and the ID is left empty when the hyperlink contains no
"/projects/" segment; a self link ending in /projects/1020 yields "1020". -/
theorem C9_project_ids_from_self_links
    (userID : Str) (resp : Response) (rest : List ExecOutcome)
    (h : resp.body.decodeOk = true) :
    ((GetProjects userID (w0 (ExecOutcome.ok resp :: rest))).1.1.map ProjectSimple.id
      = resp.body.projects.map (fun p =>
          match specSubstringFollowing (str "/projects/") p.selfHref with
          | some v => v.takeWhile (fun ch => ch ≠ '\n')
          | none => []))
    ∧ (∀ p : ProjectWire, containsSub (str "/projects/") p.selfHref = false →
        (assignProjectID p).id = [])
    ∧ (assignProjectID wire1020).id = str "1020" := by
  refine ⟨?_, ?_, by decide⟩
  · simp only [GetProjects, exec, w0, h, if_true]
    simp [List.map_map, Function.comp, assignProjectID_id_spec]
  · intro p hp
    have h1 := scanCapture_isSome (str "/projects/") p.selfHref
    rw [hp] at h1
    simp only [assignProjectID]
    rcases hs : scanCapture (str "/projects/") p.selfHref with _ | v
    · simp
    · rw [hs] at h1
      simp at h1

/-- C9 witness: a list with one matching and one non-matching self link. -/
theorem C9_witness :
    ((GetProjects (str "owner1")
        (w0 [ExecOutcome.ok
              (mkResp 200 { emptyBody with projects := [wire1020, wirePlain] })])).1.1.map
          ProjectSimple.id
      = [str "1020", []])
    ∧ (assignProjectID wire1020).id = str "1020" := by
  have h := C9_project_ids_from_self_links (str "owner1")
    (mkResp 200 { emptyBody with projects := [wire1020, wirePlain] }) [] rfl
  exact ⟨by rw [h.1]; decide, h.2.2⟩

/-- C10: DownloadFile names the local file after the capture of the pattern
filename-equals-quoted-value in the Content-Disposition header: the header
value attachment; filename="model.rex" produces a file named model.rex, and
every response without such a header — the header missing, or its value
without a match — produces a file named default.dat. -/
theorem C10_download_file_naming
    (link : Str) (resp : Response) (rest : List ExecOutcome) :
    (resp.contentDisposition = some (str "attachment; filename=\"model.rex\"") →
      (DownloadFile link (w0 (ExecOutcome.ok resp :: rest))).2.files
        = [(str "model.rex", resp.body.raw)])
    ∧ (∀ s, resp.contentDisposition = some s → scanFilenameQuoted s = none →
      (DownloadFile link (w0 (ExecOutcome.ok resp :: rest))).2.files
        = [(str "default.dat", resp.body.raw)])
    ∧ (resp.contentDisposition = none →
      (DownloadFile link (w0 (ExecOutcome.ok resp :: rest))).2.files
        = [(str "default.dat", resp.body.raw)]) := by
  refine ⟨?_, ?_, ?_⟩
  · intro h
    have hm : scanFilenameQuoted (str "attachment; filename=\"model.rex\"")
        = some (str "model.rex") := by decide
    simp [DownloadFile, exec, w0, h, hm]
  · intro s hs hnone
    simp [DownloadFile, exec, w0, hs, hnone]
  · intro h
    simp [DownloadFile, exec, w0, h, scanFilenameQuoted]

/-- C10 witness: a concrete download with the model.rex header, and one with
no Content-Disposition header at all. -/
theorem C10_witness :
    (DownloadFile (str "https://dl")
        (w0 [ExecOutcome.ok
              { status := 200,
                contentDisposition := some (str "attachment; filename=\"model.rex\""),
                body := emptyBody }])).2.files = [(str "model.rex", emptyBody.raw)]
    ∧ (DownloadFile (str "https://dl")
        (w0 [ExecOutcome.ok (mkResp 200 emptyBody)])).2.files
      = [(str "default.dat", emptyBody.raw)] :=
  ⟨(C10_download_file_naming (str "https://dl")
      { status := 200,
        contentDisposition := some (str "attachment; filename=\"model.rex\""),
        body := emptyBody } []).1 rfl,
   (C10_download_file_naming (str "https://dl") (mkResp 200 emptyBody) []).2.2 rfl⟩

end Rex
